import Mathlib

/-
Verification of the query-input-to-results pipeline of the lambda-demo-ui
repository (src/App.tsx): debounced suggestion fetching, suppression of
suggestions after an explicit search, keyboard-driven selection state,
request-body shapes, the search session state, and text truncation.

The UI component is embedded as an explicit state machine. React state
variables and refs become fields of `AppState`; each event handler and the
debounce effect become step functions on `AppState`. Network requests are
modelled as emitted `Request` values; network completions are events that
carry the response data. JS strings are modelled as Lean strings; numeric
JSON values as rationals.
-/

namespace LambdaDemo

/-- A suggestion entry, interface Suggestion in App.tsx: text and score. -/
structure Suggestion where
  text : String
  score : ℚ
  deriving DecidableEq, Repr

/-- Body of the suggest response, interface SuggestResponse in App.tsx. -/
structure SuggestResponse where
  suggestions : List Suggestion
  took : ℚ
  deriving DecidableEq, Repr

/-- A search hit, interface SearchHit in App.tsx: wire fields _id, title,
content, _score. -/
structure SearchHit where
  _id : String
  title : String
  content : String
  _score : ℚ
  deriving DecidableEq, Repr

/-- Body of the search response, interface SearchResponse in App.tsx. -/
structure SearchResponse where
  hits : List SearchHit
  took : ℚ
  deriving DecidableEq, Repr

/-- The suggest request body built in fetchSuggestions (App.tsx lines 32-36). -/
structure SuggestRequestBody where
  query : String
  fields : List String
  count : ℕ
  deriving DecidableEq, Repr

/-- The lexical sub-query of the search request (App.tsx lines 89-92). -/
structure MultiMatch where
  query : String
  fields : List String
  deriving DecidableEq, Repr

/-- The semantic sub-query of the search request (App.tsx lines 95-98). -/
structure Semantic where
  field : String
  query : String
  deriving DecidableEq, Repr

/-- One element of the rrf retrieve array (App.tsx lines 87-100). -/
inductive RetrieveClause where
  | multi_match (m : MultiMatch)
  | semantic (s : Semantic)
  deriving DecidableEq, Repr

/-- The rrf composite query object (App.tsx lines 85-102). -/
structure RrfQuery where
  retrieve : List RetrieveClause
  deriving DecidableEq, Repr

/-- The search request body built in fetchSearchResults (App.tsx lines 84-105). -/
structure SearchRequestBody where
  query : RrfQuery
  fields : List String
  size : ℕ
  deriving DecidableEq, Repr

/-- A network request issued by the component: either a POST to the suggest
endpoint or a POST to the search endpoint, identified by its JSON body. -/
inductive Request where
  | suggest (body : SuggestRequestBody)
  | search (body : SearchRequestBody)
  deriving DecidableEq, Repr

/-- Whitespace in the sense of the JS String.prototype.trim call used at
App.tsx lines 183 and 228: space, tab, line feed, carriage return, vertical
tab, form feed, no-break space, byte order mark. -/
def isJsWhitespace (c : Char) : Bool :=
  c = ' ' || c = '\t' || c = '\n' || c = '\r' || c = '\x0b' ||
  c = '\x0c' || c = ' ' || c = '﻿'

/-- Model of JS String.prototype.trim: drop whitespace from both ends. -/
def jsTrim (s : String) : String :=
  ⟨((s.data.dropWhile isJsWhitespace).reverse.dropWhile isJsWhitespace).reverse⟩

/-- The suggest request body for a query, from fetchSuggestions
(App.tsx lines 32-36). -/
def mkSuggestRequestBody (query : String) : SuggestRequestBody :=
  { query := query, fields := ["title"], count := 10 }

/-- The search request body for a query, from fetchSearchResults
(App.tsx lines 84-105): an rrf composite of a lexical multi_match over
title and content and a semantic sub-query over content, with field
projection _id, title, content and size 10. -/
def mkSearchRequestBody (query : String) : SearchRequestBody :=
  { query :=
      { retrieve :=
          [RetrieveClause.multi_match { query := query, fields := ["title", "content"] },
           RetrieveClause.semantic { field := "content", query := query }] },
    fields := ["_id", "title", "content"],
    size := 10 }

/-- Outcome of the underlying fetch call as seen by the client wrapper:
a parsed 2xx response, a non-2xx status, or a thrown transport exception
carrying its message. -/
inductive FetchOutcome (α : Type) where
  | ok (data : α)
  | httpError (status : ℕ)
  | exn (err : String)
  deriving DecidableEq, Repr

/-- Model of fetchSearchResults (App.tsx lines 83-161) as a function of the
fetch outcome and of the two performance.now readings taken around the call.
The elapsed time endTime - startTime is computed only for the diagnostic
console log (modelled as a no-op); on a 2xx response the function returns
the parsed response data unchanged, on a non-2xx status it throws the fixed
Error message, and on a transport exception it rethrows it. -/
def fetchSearchResults (outcome : FetchOutcome SearchResponse)
    (startTime endTime : ℚ) : Except String SearchResponse :=
  let _responseTime := endTime - startTime
  match outcome with
  | FetchOutcome.ok data => Except.ok data
  | FetchOutcome.httpError _ => Except.error "Search request failed"
  | FetchOutcome.exn err => Except.error err

/-- The search stats stored by performSearch on success
(App.tsx line 254): server took and hit count. -/
structure SearchStats where
  took : ℚ
  count : ℕ
  deriving DecidableEq, Repr

/-- The component state: the useState variables and useRef cells of App
(App.tsx lines 165-174), plus the multiset of issued-but-unresolved fetches,
which stands for the outstanding network calls. -/
structure AppState where
  query : String
  suggestions : List Suggestion
  results : List SearchHit
  loading : Bool
  showSuggestions : Bool
  selectedSuggestionIndex : ℤ
  searchStats : Option SearchStats
  error : Option String
  pendingTimer : Option String
  searchPerformed : Bool
  inFlightSuggest : List String
  inFlightSearch : List String
  deriving DecidableEq, Repr

/-- The initial state of the component (App.tsx lines 165-174). -/
def init : AppState :=
  { query := "", suggestions := [], results := [], loading := false,
    showSuggestions := false, selectedSuggestionIndex := -1,
    searchStats := none, error := none, pendingTimer := none,
    searchPerformed := false, inFlightSuggest := [], inFlightSearch := [] }

/-- The debounce useEffect body on a query change (App.tsx lines 177-216):
the previous timer is cleared; an empty (after trim) query clears the
suggestion list and hides it with no new timer; a non-empty query arms a
fresh 150 ms timer that captures the current query. -/
def queryEffect (s : AppState) : AppState :=
  if jsTrim s.query = "" then
    { s with pendingTimer := none, suggestions := [], showSuggestions := false }
  else
    { s with pendingTimer := some s.query }

/-- handleInputChange (App.tsx lines 266-272) followed by the debounce
effect run that the query change triggers: set the query, reset the
selection index to -1, clear the searchPerformed flag, then rearm or clear
the debounce timer. An edit event stands for an input change event, which
fires only when the value actually changes. -/
def stepEdit (s : AppState) (newValue : String) :
    AppState × List Request :=
  (queryEffect { s with
      query := newValue, selectedSuggestionIndex := -1,
      searchPerformed := false }, [])

/-- performSearch (App.tsx lines 227-263): a query that is empty after
trimming is ignored with no state change and no request; otherwise set
loading, clear the error, hide and clear the suggestions, reset the
selection index, set the searchPerformed flag, and issue the search fetch. -/
def performSearch (s : AppState) (searchQuery : String) :
    AppState × List Request :=
  if jsTrim searchQuery = "" then (s, [])
  else
    ({ s with
        loading := true, error := none, showSuggestions := false,
        suggestions := [], selectedSuggestionIndex := -1,
        searchPerformed := true,
        inFlightSearch := searchQuery :: s.inFlightSearch },
     [Request.search (mkSearchRequestBody searchQuery)])

/-- handleSuggestionClick (App.tsx lines 312-319): set the query to the
suggestion text, hide the dropdown, and perform an explicit search with
that text. When the query value actually changed, the debounce effect
reruns afterwards. -/
def handleSuggestionClick (s : AppState) (suggestion : String) :
    AppState × List Request :=
  let p := performSearch { s with
      query := suggestion, showSuggestions := false } suggestion
  (if suggestion = s.query then p.1 else queryEffect p.1, p.2)

/-- The debounce timer firing (App.tsx lines 192-209): the timer slot is
consumed; if searchPerformed is set the callback returns without fetching,
otherwise the suggest fetch for the captured query is issued. -/
def stepTimerFire (s : AppState) : AppState × List Request :=
  match s.pendingTimer with
  | none => (s, [])
  | some q =>
    if s.searchPerformed then ({ s with pendingTimer := none }, [])
    else
      ({ s with
          pendingTimer := none,
          inFlightSuggest := q :: s.inFlightSuggest },
       [Request.suggest (mkSuggestRequestBody q)])

/-- Resolution of an issued suggest fetch with a parsed response
(App.tsx lines 201-205): the suggestion list is replaced wholesale and the
dropdown is shown. The searchPerformed flag is not consulted here, and the
selection index is not touched. -/
def stepSuggestSuccess (s : AppState) (q : String)
    (resp : List Suggestion) : AppState × List Request :=
  if q ∈ s.inFlightSuggest then
    ({ s with
        inFlightSuggest := s.inFlightSuggest.erase q,
        suggestions := resp, showSuggestions := true }, [])
  else (s, [])

/-- Failure of an issued suggest fetch (App.tsx lines 206-208): the error
is only logged; no state other than the outstanding-call record changes. -/
def stepSuggestFailure (s : AppState) (q : String) :
    AppState × List Request :=
  if q ∈ s.inFlightSuggest then
    ({ s with inFlightSuggest := s.inFlightSuggest.erase q }, [])
  else (s, [])

/-- Resolution of an issued search fetch (App.tsx lines 247-254 and the
finally block at 259-262): store the hits and the stats, clear loading. -/
def stepSearchSuccess (s : AppState) (q : String)
    (hits : List SearchHit) (took : ℚ) : AppState × List Request :=
  if q ∈ s.inFlightSearch then
    ({ s with
        inFlightSearch := s.inFlightSearch.erase q,
        results := hits,
        searchStats := some { took := took, count := hits.length },
        loading := false }, [])
  else (s, [])

/-- Rejection of an issued search fetch (App.tsx lines 255-262): set the
fixed user-facing error message and clear loading; nothing else changes. -/
def stepSearchFailure (s : AppState) (q : String) :
    AppState × List Request :=
  if q ∈ s.inFlightSearch then
    ({ s with
        inFlightSearch := s.inFlightSearch.erase q,
        error := some "Search failed. Please try again.",
        loading := false }, [])
  else (s, [])

/-- The ArrowDown index update (App.tsx lines 281-283): one past the
current index, wrapping to 0 from the last entry; -1 becomes 0. -/
def arrowDownIndex (len : ℕ) (i : ℤ) : ℤ :=
  if i < (len : ℤ) - 1 then i + 1 else 0

/-- The ArrowUp index update (App.tsx lines 290-292): one before the
current index, wrapping to the last entry from 0; -1 becomes len - 1. -/
def arrowUpIndex (len : ℕ) (i : ℤ) : ℤ :=
  if 0 < i then i - 1 else (len : ℤ) - 1

/-- The ArrowDown branch of handleKeyPress (App.tsx lines 278-286): only
acts when the dropdown is shown and non-empty. -/
def stepArrowDown (s : AppState) : AppState :=
  if s.showSuggestions = true ∧ 0 < s.suggestions.length then
    { s with selectedSuggestionIndex :=
        arrowDownIndex s.suggestions.length s.selectedSuggestionIndex }
  else s

/-- The ArrowUp branch of handleKeyPress (App.tsx lines 287-295): only
acts when the dropdown is shown and non-empty. -/
def stepArrowUp (s : AppState) : AppState :=
  if s.showSuggestions = true ∧ 0 < s.suggestions.length then
    { s with selectedSuggestionIndex :=
        arrowUpIndex s.suggestions.length s.selectedSuggestionIndex }
  else s

/-- The guard of the Enter branch of handleKeyPress (App.tsx line 297):
the highlighted suggestion, when the dropdown is shown, the index is
non-negative, and the indexed entry exists (the JS truthiness test on
suggestions[selectedSuggestionIndex]). -/
def enterTarget (s : AppState) : Option Suggestion :=
  if s.showSuggestions = true ∧ 0 ≤ s.selectedSuggestionIndex then
    s.suggestions.get? s.selectedSuggestionIndex.toNat
  else none

/-- The Enter branch of handleKeyPress (App.tsx lines 296-303): commit the
highlighted suggestion when it exists, otherwise trigger an explicit
search with the current query text. -/
def stepEnter (s : AppState) : AppState × List Request :=
  match enterTarget s with
  | some sug => handleSuggestionClick s sug.text
  | none => performSearch s s.query

/-- The Escape branch of handleKeyPress (App.tsx lines 304-308): hide the
dropdown and reset the selection index. -/
def stepEscape (s : AppState) : AppState × List Request :=
  ({ s with showSuggestions := false, selectedSuggestionIndex := -1 }, [])

/-- truncateText (App.tsx lines 322-325) on the character sequence of a JS
string: text of length at most maxLength (default 500) is returned
unchanged, longer text is cut to its first maxLength characters followed
by an ellipsis marker. -/
def truncateText (text : List Char) (maxLength : ℕ := 500) : List Char :=
  if text.length ≤ maxLength then text
  else text.take maxLength ++ ['.', '.', '.']

/-- The render condition of the error banner (App.tsx line 400). -/
def errorRendered (s : AppState) : Bool :=
  s.error.isSome

/-- The render condition of the results list (App.tsx line 407). -/
def resultsRendered (s : AppState) : Bool :=
  !s.loading && decide (0 < s.results.length)

/-- The externally driven events of the component: user input, timer
expiry, and network completions. -/
inductive Event where
  | edit (q : String)
  | timerFire
  | suggestSuccess (q : String) (resp : List Suggestion)
  | suggestFailure (q : String)
  | pressArrowDown
  | pressArrowUp
  | pressEnter
  | pressEscape
  | searchSuccess (q : String) (hits : List SearchHit) (took : ℚ)
  | searchFailure (q : String)
  deriving DecidableEq, Repr

/-- Dispatch of one event to its handler. -/
def step (s : AppState) : Event → AppState × List Request
  | Event.edit q => stepEdit s q
  | Event.timerFire => stepTimerFire s
  | Event.suggestSuccess q resp => stepSuggestSuccess s q resp
  | Event.suggestFailure q => stepSuggestFailure s q
  | Event.pressArrowDown => (stepArrowDown s, [])
  | Event.pressArrowUp => (stepArrowUp s, [])
  | Event.pressEnter => stepEnter s
  | Event.pressEscape => stepEscape s
  | Event.searchSuccess q hits took => stepSearchSuccess s q hits took
  | Event.searchFailure q => stepSearchFailure s q

/-- Run a sequence of events from a state, accumulating every request the
component issues along the way. -/
def run (s : AppState) : List Event → AppState × List Request
  | [] => (s, [])
  | e :: rest =>
    let p := step s e
    let r := run p.1 rest
    (r.1, p.2 ++ r.2)

/-! Concrete data shared by witnesses and counterexamples. -/

/-- A concrete search hit used in concrete scenarios. -/
def demoHit : SearchHit :=
  { _id := "1", title := "T", content := "C", _score := 1 }

/-- A concrete search response used in concrete scenarios. -/
def demoResponse : SearchResponse :=
  { hits := [demoHit], took := 1 }

/-- The state reached by typing a, letting the debounce timer fire (the
suggest fetch is now in flight), and pressing Enter (the explicit search
sets the searchPerformed flag and clears the suggestion list). -/
def c1State : AppState :=
  (run init [Event.edit "a", Event.timerFire, Event.pressEnter]).1

/-- The state reached by: type a, receive a two-entry suggestion list,
type ab (old list still shown while the new debounce runs), press
ArrowDown twice (index 1), timer fires, and the one-entry response for ab
arrives and replaces the list. -/
def c2State : AppState :=
  (run init
    [Event.edit "a", Event.timerFire,
     Event.suggestSuccess "a"
       [{ text := "Apple", score := 1 }, { text := "Ant", score := 1 }],
     Event.edit "ab", Event.pressArrowDown, Event.pressArrowDown,
     Event.timerFire,
     Event.suggestSuccess "ab" [{ text := "Abba", score := 1 }]]).1

/-- The state reached by a successful search for a followed by a second
search for a whose fetch rejects. -/
def c3State : AppState :=
  (run init
    [Event.edit "a", Event.pressEnter,
     Event.searchSuccess "a" [demoHit] 1, Event.pressEnter,
     Event.searchFailure "a"]).1

/-! C1 -/

/-- C1, as stated, is false: in the reachable state c1State the
searchPerformed flag is true and the suggestion list is empty, yet the
response of the suggest call that was already in flight when the flag
became true is still applied and replaces the suggestion list, because the
flag is checked only when the debounce timer fires, not when the response
arrives. -/
theorem stale_suggest_response_applied_after_search :
    c1State.searchPerformed = true
    ∧ c1State.suggestions = []
    ∧ ((step c1State
          (Event.suggestSuccess "a" [{ text := "apple", score := 1 }])).1).suggestions
        = [{ text := "apple", score := 1 }]
    ∧ ((step c1State
          (Event.suggestSuccess "a" [{ text := "apple", score := 1 }])).1).searchPerformed
        = true := by
  decide

/-- C1 (amended): the searchPerformed flag is checked only at timer-fire
time. In every state where the flag is true, a firing debounce timer
issues no suggest request, consumes the timer slot, and changes nothing
else, so no new suggest call can be started while the flag holds; a
suggest call whose timer fired before the flag became true may still have
its response applied later. -/
theorem timer_fire_suppressed_when_search_performed (s : AppState)
    (h : s.searchPerformed = true) :
    stepTimerFire s = ({ s with pendingTimer := none }, []) := by
  cases hp : s.pendingTimer with
  | none =>
    cases s with
    | mk q sg r l sh si st er pt sp fg fs =>
      cases hp
      rfl
  | some q => simp [stepTimerFire, hp, h]

/-- Witness for the amended C1 theorem at a concrete flagged state. -/
theorem timer_fire_suppressed_witness :
    stepTimerFire { init with searchPerformed := true, pendingTimer := some "q" }
      = ({ init with searchPerformed := true, pendingTimer := none }, []) :=
  timer_fire_suppressed_when_search_performed
    { init with searchPerformed := true, pendingTimer := some "q" } rfl

/-! C2 -/

/-- C2, as stated, is false: in the reachable state c2State the suggestion
list has just been replaced by a one-entry suggest response, yet the
selection index is 1, not -1 — applying a suggest response does not reset
the index, so an index moved by arrow keys after the last edit survives
the replacement and here even lies outside the bounds of the new list. -/
theorem suggest_response_apply_keeps_stale_selection :
    c2State.suggestions = [{ text := "Abba", score := 1 }]
    ∧ c2State.selectedSuggestionIndex = 1 := by
  decide

/-- C2 (amended): the selection index is reset to -1 by every query edit
and by every explicit search, not by the list-replacement operations
themselves; applying a successful suggest response leaves the selection
index unchanged, whatever the new list is. -/
theorem selection_reset_on_edit_not_on_replace (s : AppState) (q r : String)
    (resp : List Suggestion) :
    ((stepEdit s q).1).selectedSuggestionIndex = -1
    ∧ ((performSearch s q).2 ≠ [] →
        ((performSearch s q).1).selectedSuggestionIndex = -1)
    ∧ ((stepSuggestSuccess s r resp).1).selectedSuggestionIndex
        = s.selectedSuggestionIndex := by
  refine ⟨?_, ?_, ?_⟩
  · simp only [stepEdit, queryEffect]
    split <;> rfl
  · intro h
    by_cases hq : jsTrim q = ""
    · simp [performSearch, hq] at h
    · simp [performSearch, hq]
  · simp only [stepSuggestSuccess]
    split <;> rfl

/-- Witness for the amended C2 theorem at a concrete state. -/
theorem selection_reset_witness :
    ((performSearch c2State "ab").2 ≠ []) ∧
    ((performSearch c2State "ab").1).selectedSuggestionIndex = -1 :=
  ⟨by decide,
   (selection_reset_on_edit_not_on_replace c2State "ab" "ab" []).2.1 (by decide)⟩

/-! C3 -/

/-- C3, as stated, is false: in the reachable state c3State a search has
just rejected; the error is the fixed message and loading is cleared, but
the results of the previous successful search are not replaced — they
remain in state and the render conditions show them together with the
error banner. -/
theorem failed_search_keeps_prior_results_rendered :
    c3State.error = some "Search failed. Please try again."
    ∧ c3State.loading = false
    ∧ c3State.results = [demoHit]
    ∧ errorRendered c3State = true
    ∧ resultsRendered c3State = true := by
  decide

/-- C3 (amended): when the backend call of an explicit search rejects, the
session transitions to the failed state with exactly the fixed message
Search failed. Please try again. and the loading flag is cleared, but any
prior results are left in place, not replaced: they continue to satisfy
the render condition alongside the error banner. -/
theorem search_failure_sets_fixed_error_keeps_results (s : AppState)
    (q : String) (h : q ∈ s.inFlightSearch) :
    ((stepSearchFailure s q).1).error = some "Search failed. Please try again."
    ∧ ((stepSearchFailure s q).1).loading = false
    ∧ ((stepSearchFailure s q).1).results = s.results
    ∧ (stepSearchFailure s q).2 = [] := by
  simp [stepSearchFailure, h]

/-- Witness for the amended C3 theorem at a concrete state with an
outstanding search call and prior results. -/
theorem search_failure_witness :
    ((stepSearchFailure { init with inFlightSearch := ["a"], results := [demoHit] }
        "a").1).error = some "Search failed. Please try again."
    ∧ ((stepSearchFailure { init with inFlightSearch := ["a"], results := [demoHit] }
        "a").1).loading = false
    ∧ ((stepSearchFailure { init with inFlightSearch := ["a"], results := [demoHit] }
        "a").1).results
        = ({ init with inFlightSearch := ["a"], results := [demoHit] } : AppState).results
    ∧ (stepSearchFailure { init with inFlightSearch := ["a"], results := [demoHit] }
        "a").2 = [] :=
  search_failure_sets_fixed_error_keeps_results
    { init with inFlightSearch := ["a"], results := [demoHit] } "a" (by decide)

/-! C4 -/

/-- C4, as stated, is false: for one and the same 2xx response the value
returned by fetchSearchResults is identical whether the measured wall
clock interval is 5 or 500000, and equals exactly the parsed server
response — so the returned value contains no clientElapsedMs component. -/
theorem search_return_independent_of_elapsed_time :
    fetchSearchResults (FetchOutcome.ok demoResponse) 0 5
      = fetchSearchResults (FetchOutcome.ok demoResponse) 0 500000
    ∧ fetchSearchResults (FetchOutcome.ok demoResponse) 0 5
      = Except.ok demoResponse :=
  ⟨rfl, rfl⟩

/-- C4 (amended): fetchSearchResults reads the clock around the call and
uses the elapsed time only for diagnostic logging; its returned value does
not depend on the clock readings, and on every 2xx response it is exactly
the parsed server response, which carries only hits and took. -/
theorem search_result_is_server_response_only
    (o : FetchOutcome SearchResponse) (t₁ t₂ u₁ u₂ : ℚ) :
    fetchSearchResults o t₁ t₂ = fetchSearchResults o u₁ u₂
    ∧ ∀ resp : SearchResponse,
        fetchSearchResults (FetchOutcome.ok resp) t₁ t₂ = Except.ok resp := by
  constructor
  · cases o <;> rfl
  · intro resp
    rfl

/-! C5 -/

/-- Unfolding equation of run on a cons cell. -/
theorem run_cons (s : AppState) (e : Event) (l : List Event) :
    run s (e :: l)
      = ((run (step s e).1 l).1, (step s e).2 ++ (run (step s e).1 l).2) :=
  rfl

/-- Running a concatenation of event lists runs them in sequence and
concatenates the issued requests. -/
theorem run_append (s : AppState) (l₁ l₂ : List Event) :
    run s (l₁ ++ l₂)
      = ((run (run s l₁).1 l₂).1, (run s l₁).2 ++ (run (run s l₁).1 l₂).2) := by
  induction l₁ generalizing s with
  | nil => simp [run]
  | cons e rest ih =>
    simp only [List.cons_append, run_cons]
    rw [ih]
    simp [List.append_assoc]

/-- Query edits issue no network requests. -/
theorem edits_no_requests (qs : List String) (s : AppState) :
    (run s (qs.map Event.edit)).2 = [] := by
  induction qs generalizing s with
  | nil => rfl
  | cons q rest ih => simp [run, step, stepEdit, ih]

/-- The state after a burst of edits is the edit step applied for the last
edit to the state reached by the earlier ones. -/
theorem edits_final_state (qs : List String) (q : String) (s : AppState) :
    (run s ((qs ++ [q]).map Event.edit)).1
      = (stepEdit ((run s (qs.map Event.edit)).1) q).1 := by
  induction qs generalizing s with
  | nil => simp [run, step]
  | cons a rest ih =>
    simp only [List.cons_append, List.map_cons, run_cons]
    exact ih _

/-- After an edit the timer slot holds the new query when it is non-empty
after trimming, and is empty otherwise. -/
theorem stepEdit_pendingTimer (s : AppState) (q : String) :
    ((stepEdit s q).1).pendingTimer
      = if jsTrim q = "" then none else some q := by
  simp only [stepEdit, queryEffect]
  split <;> rfl

/-- Every edit clears the searchPerformed flag. -/
theorem stepEdit_searchPerformed (s : AppState) (q : String) :
    ((stepEdit s q).1).searchPerformed = false := by
  simp only [stepEdit, queryEffect]
  split <;> rfl

/-- C5 (confirmed): a burst of consecutive edits with no timer expiry in
between issues no suggest request at all; afterwards the single timer slot
holds only the final query (every earlier timer was cancelled and
replaced), and when the timer then fires, the requests issued by the whole
sequence are exactly one suggest call for the final query — or none when
the final query is empty after trimming. -/
theorem debounce_coalescing (qs : List String) (q : String) (s : AppState) :
    (run s ((qs ++ [q]).map Event.edit)).2 = []
    ∧ ((run s ((qs ++ [q]).map Event.edit)).1).pendingTimer
        = (if jsTrim q = "" then none else some q)
    ∧ (run s ((qs ++ [q]).map Event.edit ++ [Event.timerFire])).2
        = (if jsTrim q = "" then []
           else [Request.suggest (mkSuggestRequestBody q)]) := by
  refine ⟨edits_no_requests (qs ++ [q]) s, ?_, ?_⟩
  · rw [edits_final_state, stepEdit_pendingTimer]
  · have hsnd := congrArg Prod.snd
      (run_append s ((qs ++ [q]).map Event.edit) [Event.timerFire])
    rw [hsnd, edits_no_requests (qs ++ [q]) s, List.nil_append,
        edits_final_state qs q s]
    by_cases hq : jsTrim q = ""
    · simp [run, step, stepTimerFire, stepEdit_pendingTimer,
            stepEdit_searchPerformed, hq]
    · simp [run, step, stepTimerFire, stepEdit_pendingTimer,
            stepEdit_searchPerformed, hq]

/-! C6 -/

/-- ArrowDown never changes the dropdown visibility. -/
theorem stepArrowDown_showSuggestions (s : AppState) :
    (stepArrowDown s).showSuggestions = s.showSuggestions := by
  unfold stepArrowDown
  split <;> rfl

/-- ArrowDown never changes the suggestion list. -/
theorem stepArrowDown_suggestions (s : AppState) :
    (stepArrowDown s).suggestions = s.suggestions := by
  unfold stepArrowDown
  split <;> rfl

/-- When the dropdown is visible and non-empty, ArrowDown updates the
selection index by the pure index function. -/
theorem stepArrowDown_index (s : AppState) (h : s.showSuggestions = true)
    (hl : 0 < s.suggestions.length) :
    (stepArrowDown s).selectedSuggestionIndex
      = arrowDownIndex s.suggestions.length s.selectedSuggestionIndex := by
  unfold stepArrowDown
  rw [if_pos ⟨h, hl⟩]

/-- ArrowUp never changes the dropdown visibility. -/
theorem stepArrowUp_showSuggestions (s : AppState) :
    (stepArrowUp s).showSuggestions = s.showSuggestions := by
  unfold stepArrowUp
  split <;> rfl

/-- ArrowUp never changes the suggestion list. -/
theorem stepArrowUp_suggestions (s : AppState) :
    (stepArrowUp s).suggestions = s.suggestions := by
  unfold stepArrowUp
  split <;> rfl

/-- When the dropdown is visible and non-empty, ArrowUp updates the
selection index by the pure index function. -/
theorem stepArrowUp_index (s : AppState) (h : s.showSuggestions = true)
    (hl : 0 < s.suggestions.length) :
    (stepArrowUp s).selectedSuggestionIndex
      = arrowUpIndex s.suggestions.length s.selectedSuggestionIndex := by
  unfold stepArrowUp
  rw [if_pos ⟨h, hl⟩]

/-- Iterated ArrowDown on a visible state keeps the dropdown visible and
the list unchanged, and iterates the pure index function. -/
theorem stepArrowDown_iterate (k : ℕ) (s : AppState)
    (h : s.showSuggestions = true) (hl : 0 < s.suggestions.length) :
    (stepArrowDown^[k] s).showSuggestions = true
    ∧ (stepArrowDown^[k] s).suggestions = s.suggestions
    ∧ (stepArrowDown^[k] s).selectedSuggestionIndex
        = ((arrowDownIndex s.suggestions.length)^[k]
            s.selectedSuggestionIndex) := by
  induction k with
  | zero => exact ⟨h, rfl, rfl⟩
  | succ n ih =>
    obtain ⟨h1, h2, h3⟩ := ih
    rw [Function.iterate_succ_apply', Function.iterate_succ_apply']
    refine ⟨(stepArrowDown_showSuggestions _).trans h1,
            (stepArrowDown_suggestions _).trans h2, ?_⟩
    rw [stepArrowDown_index _ h1 (by rw [h2]; exact hl), h2, h3]

/-- Iterated ArrowUp on a visible state keeps the dropdown visible and
the list unchanged, and iterates the pure index function. -/
theorem stepArrowUp_iterate (k : ℕ) (s : AppState)
    (h : s.showSuggestions = true) (hl : 0 < s.suggestions.length) :
    (stepArrowUp^[k] s).showSuggestions = true
    ∧ (stepArrowUp^[k] s).suggestions = s.suggestions
    ∧ (stepArrowUp^[k] s).selectedSuggestionIndex
        = ((arrowUpIndex s.suggestions.length)^[k]
            s.selectedSuggestionIndex) := by
  induction k with
  | zero => exact ⟨h, rfl, rfl⟩
  | succ n ih =>
    obtain ⟨h1, h2, h3⟩ := ih
    rw [Function.iterate_succ_apply', Function.iterate_succ_apply']
    refine ⟨(stepArrowUp_showSuggestions _).trans h1,
            (stepArrowUp_suggestions _).trans h2, ?_⟩
    rw [stepArrowUp_index _ h1 (by rw [h2]; exact hl), h2, h3]

/-- The k+1st ArrowDown index from -1 is k, for k below the length. -/
theorem arrowDownIndex_iterate (L k : ℕ) (hk : k < L) :
    (arrowDownIndex L)^[k + 1] (-1) = k := by
  induction k with
  | zero =>
    show arrowDownIndex L (-1) = 0
    unfold arrowDownIndex
    split <;> norm_num
  | succ n ih =>
    rw [Function.iterate_succ_apply', ih (by omega)]
    unfold arrowDownIndex
    rw [if_pos (by omega)]
    omega

/-- L+1 consecutive ArrowDown presses from -1 wrap back to 0. -/
theorem arrowDownIndex_wrap (L : ℕ) (hL : 1 ≤ L) :
    (arrowDownIndex L)^[L + 1] (-1) = 0 := by
  cases L with
  | zero => exact absurd hL (by decide)
  | succ m =>
    rw [Function.iterate_succ_apply',
        arrowDownIndex_iterate (m + 1) m (by omega)]
    unfold arrowDownIndex
    rw [if_neg (by omega)]

/-- The k+1st ArrowUp index from -1 is L-1-k, for k below the length. -/
theorem arrowUpIndex_iterate (L k : ℕ) (hk : k < L) :
    (arrowUpIndex L)^[k + 1] (-1) = (L : ℤ) - 1 - k := by
  induction k with
  | zero =>
    show arrowUpIndex L (-1) = (L : ℤ) - 1 - 0
    unfold arrowUpIndex
    rw [if_neg (by norm_num)]
    omega
  | succ n ih =>
    rw [Function.iterate_succ_apply', ih (by omega)]
    unfold arrowUpIndex
    rw [if_pos (by omega)]
    omega

/-- L+1 consecutive ArrowUp presses from -1 wrap back to L-1. -/
theorem arrowUpIndex_wrap (L : ℕ) (hL : 1 ≤ L) :
    (arrowUpIndex L)^[L + 1] (-1) = (L : ℤ) - 1 := by
  cases L with
  | zero => exact absurd hL (by decide)
  | succ m =>
    rw [Function.iterate_succ_apply',
        arrowUpIndex_iterate (m + 1) m (by omega)]
    have h0 : ((m + 1 : ℕ) : ℤ) - 1 - (m : ℕ) = 0 := by push_cast; ring
    rw [h0]
    unfold arrowUpIndex
    rw [if_neg (by norm_num)]

/-- C6 (confirmed): with the dropdown visible over a list of length L at
least 1 and the selection index at -1, the k+1st consecutive ArrowDown
press selects index k for every k below L and the L+1st wraps back to 0;
the k+1st consecutive ArrowUp press selects index L-1-k for every k below
L and the L+1st wraps back to L-1. In particular the first ArrowDown
selects 0 and the first ArrowUp selects L-1. -/
theorem selection_wrap (s : AppState) (L : ℕ) (hL : 1 ≤ L)
    (hshow : s.showSuggestions = true) (hlen : s.suggestions.length = L)
    (hidx : s.selectedSuggestionIndex = -1) :
    (∀ k : ℕ, k < L →
        (stepArrowDown^[k + 1] s).selectedSuggestionIndex = k)
    ∧ (stepArrowDown^[L + 1] s).selectedSuggestionIndex = 0
    ∧ (∀ k : ℕ, k < L →
        (stepArrowUp^[k + 1] s).selectedSuggestionIndex = (L : ℤ) - 1 - k)
    ∧ (stepArrowUp^[L + 1] s).selectedSuggestionIndex = (L : ℤ) - 1 := by
  have hl0 : 0 < s.suggestions.length := by omega
  refine ⟨fun k hk => ?_, ?_, fun k hk => ?_, ?_⟩
  · rw [(stepArrowDown_iterate (k + 1) s hshow hl0).2.2, hlen, hidx]
    exact arrowDownIndex_iterate L k hk
  · rw [(stepArrowDown_iterate (L + 1) s hshow hl0).2.2, hlen, hidx]
    exact arrowDownIndex_wrap L hL
  · rw [(stepArrowUp_iterate (k + 1) s hshow hl0).2.2, hlen, hidx]
    exact arrowUpIndex_iterate L k hk
  · rw [(stepArrowUp_iterate (L + 1) s hshow hl0).2.2, hlen, hidx]
    exact arrowUpIndex_wrap L hL

/-- A concrete visible state with a two-entry suggestion list and no
selection. -/
def demoVisibleState : AppState :=
  { init with
      query := "ab",
      suggestions := [{ text := "Apple", score := 1 }, { text := "Ant", score := 1 }],
      showSuggestions := true }

/-- Witness for the C6 theorem at a concrete visible state of length 2:
three ArrowDown presses from -1 wrap to 0, and one ArrowUp press from -1
selects the last entry. -/
theorem selection_wrap_witness :
    (stepArrowDown^[3] demoVisibleState).selectedSuggestionIndex = 0
    ∧ (stepArrowUp^[0 + 1] demoVisibleState).selectedSuggestionIndex
        = (2 : ℤ) - 1 - (0 : ℕ) :=
  ⟨(selection_wrap demoVisibleState 2 (by decide) rfl rfl rfl).2.1,
   (selection_wrap demoVisibleState 2 (by decide) rfl rfl rfl).2.2.1 0
     (by decide)⟩

/-! C7 -/

/-- C7 (confirmed): truncation returns text of length at most 500
unchanged, returns exactly the first 500 characters followed by the
ellipsis marker for longer text, and is idempotent. -/
theorem truncateText_spec (s : List Char) :
    (s.length ≤ 500 → truncateText s = s)
    ∧ (500 < s.length → truncateText s = s.take 500 ++ ['.', '.', '.'])
    ∧ truncateText (truncateText s) = truncateText s := by
  refine ⟨fun h => by unfold truncateText; rw [if_pos h],
          fun h => by unfold truncateText; rw [if_neg (by omega)], ?_⟩
  by_cases h : s.length ≤ 500
  · have h1 : truncateText s = s := by
      unfold truncateText
      rw [if_pos h]
    rw [h1]
    exact h1
  · have h2 : truncateText s = s.take 500 ++ ['.', '.', '.'] := by
      unfold truncateText
      rw [if_neg h]
    have hlen : (s.take 500 ++ ['.', '.', '.'] : List Char).length = 503 := by
      rw [List.length_append, List.length_take]
      simp only [List.length_cons, List.length_nil]
      omega
    rw [h2]
    unfold truncateText
    rw [if_neg (by rw [hlen]; omega),
        List.take_append_of_le_length (by rw [List.length_take]; omega),
        List.take_take]
    norm_num

/-- Witness for the C7 theorem: a two-character text is returned
unchanged. -/
theorem truncateText_witness :
    (['a', 'b'] : List Char).length ≤ 500
    ∧ truncateText ['a', 'b'] = ['a', 'b'] :=
  ⟨by decide, (truncateText_spec ['a', 'b']).1 (by decide)⟩

/-! C8 -/

/-- C8 (confirmed): invoking performSearch with a query that is empty
after trimming leaves the entire state unchanged and issues no network
request. -/
theorem empty_query_search_is_noop (s : AppState) (q : String)
    (h : jsTrim q = "") : performSearch s q = (s, []) := by
  unfold performSearch
  rw [if_pos h]

/-- Witness for the C8 theorem: a whitespace-only query against a state
with prior results changes nothing. -/
theorem empty_query_search_witness :
    performSearch { init with query := "x", results := [demoHit] } "   "
      = ({ init with query := "x", results := [demoHit] }, []) :=
  empty_query_search_is_noop
    { init with query := "x", results := [demoHit] } "   " (by decide)

/-! C9 -/

/-- C9 (confirmed): a firing debounce timer with the flag clear issues
exactly one suggest request with body query, fields title, count 10 for
the captured query; a non-empty explicit search issues exactly one search
request whose body is the rrf composite of one lexical multi_match over
title and content and one semantic sub-query over content, with field
projection _id, title, content (the abstract id field of the spec is the
wire field _id) and fixed size 10. -/
theorem request_body_shapes (s t : AppState) (q r : String)
    (hq : s.pendingTimer = some q) (hf : s.searchPerformed = false)
    (hr : ¬ jsTrim r = "") :
    (stepTimerFire s).2
      = [Request.suggest { query := q, fields := ["title"], count := 10 }]
    ∧ (performSearch t r).2
      = [Request.search
          { query :=
              { retrieve :=
                  [RetrieveClause.multi_match
                     { query := r, fields := ["title", "content"] },
                   RetrieveClause.semantic
                     { field := "content", query := r }] },
            fields := ["_id", "title", "content"], size := 10 }] := by
  constructor
  · simp [stepTimerFire, hq, hf, mkSuggestRequestBody]
  · unfold performSearch
    rw [if_neg hr]
    rfl

/-- Witness for the C9 theorem at a concrete armed state and query. -/
theorem request_body_shapes_witness :
    (stepTimerFire { init with pendingTimer := some "ein" }).2
      = [Request.suggest { query := "ein", fields := ["title"], count := 10 }]
    ∧ (performSearch init "ein").2
      = [Request.search
          { query :=
              { retrieve :=
                  [RetrieveClause.multi_match
                     { query := "ein", fields := ["title", "content"] },
                   RetrieveClause.semantic
                     { field := "content", query := "ein" }] },
            fields := ["_id", "title", "content"], size := 10 }] :=
  request_body_shapes { init with pendingTimer := some "ein" } init
    "ein" "ein" rfl rfl (by decide)

/-! C10 -/

/-- C10 (confirmed): when Enter is pressed with a selection that does not
address an existing suggestion — index at least the list length, dropdown
hidden, or empty list — the handler resolves to an explicit search with
the current query text and reads no list entry; a suggestion is committed
only when the indexed entry actually exists, and then it is exactly that
entry. -/
theorem enter_key_safe (s : AppState) :
    (((s.suggestions.length : ℤ) ≤ s.selectedSuggestionIndex
        ∨ s.showSuggestions = false ∨ s.suggestions = []) →
      (enterTarget s = none ∧ stepEnter s = performSearch s s.query))
    ∧ (∀ sug : Suggestion, enterTarget s = some sug →
        (s.suggestions.get? s.selectedSuggestionIndex.toNat = some sug
         ∧ stepEnter s = handleSuggestionClick s sug.text)) := by
  constructor
  · intro h
    have ht : enterTarget s = none := by
      unfold enterTarget
      rcases h with h | h | h
      · by_cases hc : s.showSuggestions = true ∧ 0 ≤ s.selectedSuggestionIndex
        · rw [if_pos hc]
          exact List.get?_eq_none.mpr (by omega)
        · rw [if_neg hc]
      · rw [if_neg (by simp [h])]
      · by_cases hc : s.showSuggestions = true ∧ 0 ≤ s.selectedSuggestionIndex
        · rw [if_pos hc, h]
          rfl
        · rw [if_neg hc]
    refine ⟨ht, ?_⟩
    unfold stepEnter
    rw [ht]
  · intro sug hsug
    have h1 : s.suggestions.get? s.selectedSuggestionIndex.toNat = some sug := by
      unfold enterTarget at hsug
      by_cases hc : s.showSuggestions = true ∧ 0 ≤ s.selectedSuggestionIndex
      · rwa [if_pos hc] at hsug
      · rw [if_neg hc] at hsug
        exact absurd hsug (by simp)
    refine ⟨h1, ?_⟩
    unfold stepEnter
    rw [hsug]

/-- Witness for the C10 theorem: in the reachable state c2State the
selection index 1 is outside the one-entry list, so Enter resolves to an
explicit search with the current query. -/
theorem enter_key_safe_witness :
    enterTarget c2State = none
    ∧ stepEnter c2State = performSearch c2State c2State.query :=
  (enter_key_safe c2State).1 (by decide)

end LambdaDemo
